import Mathlib

/-!
Verification of the logo page-transition core (`transition.js`) against its
natural-language specification.

The embedding is shallow: pure computations of the source become Lean
functions over `ℚ` (geometry, parameters) and `Int` (timestamps), the
session-storage handoff slot becomes an explicit `SlotContent` value threaded
through the read operation, and the async control flow of the click path
becomes an explicit event trace.  Browser builtins (`parseFloat`,
`JSON.parse`, the Web Animations API) are modelled at their observable
boundary: `parseFloat` by its resulting optional number (`none` for NaN on an
absent, empty, or non-numeric attribute), `JSON.parse` by whether the stored
string parses and into which record, and an animation by the completion event
it fires.
-/

namespace LogoTransition

/-- JavaScript `v || d` on an optional number, as used throughout
`transition.js` (`parseFloat(x) || default`, `data.scale || default`):
`undefined` and NaN are modelled by `none`; the number `0` is falsy in
JavaScript, so it also falls through to the default. -/
def jsOrNum (v : Option ℚ) (d : ℚ) : ℚ :=
  match v with
  | none => d
  | some x => if x = 0 then d else x

/-- JavaScript `s || d` on an optional string (`link.dataset.color ||
'#6366f1'` at transition.js:72): `undefined` is `none`, and the empty string
is falsy. -/
def jsOrStr (v : Option String) (d : String) : String :=
  match v with
  | none => d
  | some s => if s = "" then d else s

/-- A rectangle in viewport pixel coordinates, as produced by
`getBoundingClientRect` and consumed by the box animations. -/
structure Rect where
  left : ℚ
  top : ℚ
  width : ℚ
  height : ℚ
deriving DecidableEq, Repr

/-- The system defaults of transition.js:29-33: `scale: 15, offsetX: 0,
offsetY: 0`. -/
structure Defaults where
  scale : ℚ
  offsetX : ℚ
  offsetY : ℚ

/-- `this.defaults` from the constructor (transition.js:29-33). -/
def defaults : Defaults := { scale := 15, offsetX := 0, offsetY := 0 }

/-- Model of a transition-enabled anchor element as `getServiceData` reads it
(transition.js:68-89).  The numeric `data-scale`, `data-offset-x`,
`data-offset-y` attributes are modelled by the result of the browser builtin
`parseFloat` applied to them: `none` when the attribute is absent, empty, or
not parseable as a number (`parseFloat` yields NaN, which is falsy), `some q`
when it parses to the number `q`.  `color` is the raw optional `data-color`
string, `svgOuterHTML` the serialized inner SVG, and `rect` the logo
wrapper's bounding client rectangle at click time. -/
structure LinkAttrs where
  service : String
  color : Option String
  scaleParsed : Option ℚ
  offsetXParsed : Option ℚ
  offsetYParsed : Option ℚ
  svgOuterHTML : String
  rect : Rect

/-- The record returned by `getServiceData` (transition.js:79-88). -/
structure ServiceData where
  serviceName : String
  fillColor : String
  svgContent : String
  rect : Rect
  scale : ℚ
  offsetX : ℚ
  offsetY : ℚ

/-- `getServiceData(link)` (transition.js:68-89): resolves the per-element
transition parameters; each numeric attribute goes through
`parseFloat(...) || default`, the color through `... || '#6366f1'`. -/
def getServiceData (link : LinkAttrs) : ServiceData :=
  { serviceName := link.service
    fillColor := jsOrStr link.color "#6366f1"
    svgContent := link.svgOuterHTML
    rect := link.rect
    scale := jsOrNum link.scaleParsed defaults.scale
    offsetX := jsOrNum link.offsetXParsed defaults.offsetX
    offsetY := jsOrNum link.offsetYParsed defaults.offsetY }

/-- The target full-bleed rectangle computed by `expandLogo`
(transition.js:131-148): `finalSize = max(rect.width, rect.height) * scale`,
`centerX = vw/2 - finalSize/2 + (offsetX/100)*vw`, symmetric for `centerY`;
the animation drives the clone box to `(centerX, centerY, finalSize,
finalSize)`.  (The source also computes an unused `maxDimension =
Math.max(vw, vh)`.) -/
def expandTarget (vw vh : ℚ) (rect : Rect) (scale offsetX offsetY : ℚ) : Rect :=
  let logoSize := max rect.width rect.height
  let finalSize := logoSize * scale
  let offsetPixelsX := offsetX / 100 * vw
  let offsetPixelsY := offsetY / 100 * vh
  let centerX := vw / 2 - finalSize / 2 + offsetPixelsX
  let centerY := vh / 2 - finalSize / 2 + offsetPixelsY
  { left := centerX, top := centerY, width := finalSize, height := finalSize }

/-- The spec's formula for the full-bleed target rectangle, written from the
spec's own words (section 4.3): `finalSize = max(sourceRect.width,
sourceRect.height) * scaleFactor`; `targetLeft = viewportWidth/2 -
finalSize/2 + offsetXFraction/100*viewportWidth`; symmetric for
`targetTop`/height.  Stated separately from `expandTarget` so the two can be
compared. -/
def specFullBleedTarget (vw vh : ℚ) (rect : Rect) (scale offsetX offsetY : ℚ) : Rect :=
  { left := vw / 2 - max rect.width rect.height * scale / 2 + offsetX / 100 * vw
    top := vh / 2 - max rect.width rect.height * scale / 2 + offsetY / 100 * vh
    width := max rect.width rect.height * scale
    height := max rect.width rect.height * scale }

/-- The record serialized into `sessionStorage` under the key
`transitionData` (transition.js:100-108) and parsed back on load.  Every
field is optional: a JavaScript property access on a parsed value yields
`undefined` (`none`) when the property is missing, so records written by
other code, truncated by corruption, or even JSON-parseable non-objects
(numbers, booleans, strings, arrays — on which every property access yields
`undefined`) are representable.  A record written by `startTransition` has
every field populated.  `timestamp` is the capture time in milliseconds
(`Date.now()`). -/
structure Payload where
  fillColor : Option String
  serviceName : Option String
  svgContent : Option String
  scale : Option ℚ
  offsetX : Option ℚ
  offsetY : Option ℚ
  timestamp : Option Int
deriving DecidableEq, Repr

/-- The payload `startTransition` writes to the slot (transition.js:100-108):
the resolved service data plus `timestamp: Date.now()`. -/
def putPayload (sd : ServiceData) (now : Int) : Payload :=
  { fillColor := some sd.fillColor
    serviceName := some sd.serviceName
    svgContent := some sd.svgContent
    scale := some sd.scale
    offsetX := some sd.offsetX
    offsetY := some sd.offsetY
    timestamp := some now }

/-- Content of the `transitionData` session-storage slot at document load,
partitioned by how `getItem` and then `JSON.parse` see it: `absent` when
`getItem` returns null (no entry for the key); `empty` when it returns the
empty string — falsy in JavaScript, so the guard `if (!transitionData)
return` at transition.js:180 takes it, same as null; `garbled s` when it
returns a non-empty string `s` that `JSON.parse` rejects (the parse throws);
`parsedNull` when it returns the non-empty string of the JSON literal
`null`, which parses but on which the property access `data.timestamp`
throws a TypeError; and `stored p` when the string parses into a value on
which property access succeeds (an object, array, or primitive), read as the
record `p` with `none` for missing properties. -/
inductive SlotContent
  | absent
  | empty
  | garbled (s : String)
  | parsedNull
  | stored (p : Payload)
deriving DecidableEq, Repr

/-- Observable outcome of the slot-reading part of `checkIncomingTransition`
(transition.js:177-190, the spec's `takeIfFresh`): the slot content after the
read, the payload handed on for replay (if any), and whether an exception
escaped. -/
structure TakeResult where
  slotAfter : SlotContent
  value : Option Payload
  raised : Bool
deriving DecidableEq, Repr

/-- Lines 177-190 of `checkIncomingTransition`: read the slot; `if
(!transitionData) return` — a falsy read (null or the empty string) returns
at once, clearing nothing and raising nothing.  `JSON.parse` the string — on
a string it rejects, the exception propagates and nothing below runs (in
particular `removeItem` is never reached).  Then `data.timestamp` — a
TypeError if the parse produced null, again before any `removeItem`.
Otherwise compute `timeSinceTransition = Date.now() - data.timestamp`; when
the record has no numeric `timestamp` this is NaN and the JavaScript
comparison `NaN > 3000` is false.  If `timeSinceTransition > 3000`, remove
the slot and return nothing; otherwise remove the slot and yield the parsed
record. -/
def takeIfFresh (slot : SlotContent) (now : Int) : TakeResult :=
  match slot with
  | .absent => { slotAfter := .absent, value := none, raised := false }
  | .empty => { slotAfter := .empty, value := none, raised := false }
  | .garbled s => { slotAfter := .garbled s, value := none, raised := true }
  | .parsedNull => { slotAfter := .parsedNull, value := none, raised := true }
  | .stored p =>
      let stale : Bool :=
        match p.timestamp with
        | some t => decide (now - t > 3000)
        | none => false
      if stale then { slotAfter := .absent, value := none, raised := false }
      else { slotAfter := .absent, value := some p, raised := false }

/-- Outcome of the whole of `checkIncomingTransition` (transition.js:177-198):
`replay` is the payload passed to `completeTransition`, which performs every
DOM mutation of the hero and page elements (hide hero, mark visible, class
changes); `replay = none` means `completeTransition` is never invoked and no
such mutation happens. -/
structure CheckOutcome where
  slotAfter : SlotContent
  replay : Option Payload
  raised : Bool
deriving DecidableEq, Repr

/-- `checkIncomingTransition` (transition.js:177-198): the slot read of
lines 177-190 followed by the destination-marker query of lines 192-197 —
`completeTransition(data, ...)` runs only when both `.service-page` and
`.hero-logo` are found (`markersFound`). -/
def checkIncomingTransition (slot : SlotContent) (now : Int) (markersFound : Bool) :
    CheckOutcome :=
  let r := takeIfFresh slot now
  { slotAfter := r.slotAfter
    replay :=
      match r.value with
      | some p => if markersFound then some p else none
      | none => none
    raised := r.raised }

/-- The full-bleed rectangle at which `createExpandedOverlay`
(transition.js:224-251) places the destination clone before the shrink:
`logoSize = 64`, `scale = data.scale || defaults.scale`, `expandedSize =
logoSize * scale`, `offsetPixelsX = ((data.offsetX || 0) / 100) * vw`, and
the clone box is set to `(centerX, centerY, expandedSize, expandedSize)`. -/
def createExpandedOverlayRect (vw vh : ℚ) (data : Payload) : Rect :=
  let logoSize : ℚ := 64
  let scale := jsOrNum data.scale defaults.scale
  let expandedSize := logoSize * scale
  let offsetPixelsX := jsOrNum data.offsetX 0 / 100 * vw
  let offsetPixelsY := jsOrNum data.offsetY 0 / 100 * vh
  let centerX := vw / 2 - expandedSize / 2 + offsetPixelsX
  let centerY := vh / 2 - expandedSize / 2 + offsetPixelsY
  { left := centerX, top := centerY, width := expandedSize, height := expandedSize }

/-- Observable actions of the click-driven origin path, in program order. -/
inductive Ev
  | preventDefault
  | setInFlight
  | addTransitioningClass
  | setBackground (color : String)
  | storeWrite (p : Payload)
  | createClone
  | expandAnimStart
  | expandAnimFinish
  | navigate (url : String)
deriving DecidableEq, Repr

/-- The ordered actions of `startTransition` (transition.js:91-113): set the
in-flight flag, add the `transitioning` class, paint the accent background,
write the handoff payload, build the overlay clone (`createTransitionLogo`),
start the expand animation (`expandLogo`), suspend until its `onfinish`
resolves, then assign `window.location.href`.  The trace is straight-line:
the source has no branch and no early return between these statements. -/
def startTransitionEvents (url : String) (sd : ServiceData) (now : Int) : List Ev :=
  [ .setInFlight
  , .addTransitioningClass
  , .setBackground sd.fillColor
  , .storeWrite (putPayload sd now)
  , .createClone
  , .expandAnimStart
  , .expandAnimFinish
  , .navigate url ]

/-- The click listener installed by `attachLinkHandlers`
(transition.js:55-64): `e.preventDefault()` runs first, then `if
(this.isTransitioning) return;` drops the click, else the handler resolves
the service data and calls `startTransition`. -/
def clickEvents (isTransitioning : Bool) (link : LinkAttrs) (url : String) (now : Int) :
    List Ev :=
  .preventDefault ::
    (if isTransitioning then []
     else startTransitionEvents url (getServiceData link) now)

/-- State of the overlay host's clone children and of the
`this.transitionLogo` reference: `attached` counts `transition-logo` elements
currently appended to the overlay, `ref` is whether `this.transitionLogo` is
non-null. -/
structure CloneState where
  attached : ℕ
  ref : Bool
deriving DecidableEq, Repr

/-- `createTransitionLogo` (transition.js:115-129): builds a fresh clone,
overwrites `this.transitionLogo` with it, and appends it to the overlay —
unconditionally, leaving any previously attached clone in place with its
reference lost. -/
def createCloneOp (s : CloneState) : CloneState :=
  { attached := s.attached + 1, ref := true }

/-- `cleanup` (transition.js:599-605): if `this.transitionLogo` is non-null,
remove that one element and null the reference; detached clones no longer
referenced are not touched. -/
def cleanupOp (s : CloneState) : CloneState :=
  { attached := if s.ref then s.attached - 1 else s.attached, ref := false }

/-- A configuration of the inspector preview path: the clone state plus the
number of `previewTransition` invocations currently suspended at their
animation awaits, whose trailing `cleanup` is still pending. -/
structure PreviewConfig where
  clones : CloneState
  suspendedPreviews : ℕ
deriving DecidableEq, Repr

/-- Event-loop reachability for the inspector preview path
(`previewTransition`, transition.js:527-569).  The function runs one
synchronous prefix — `getServiceData` then `createTransitionLogo` — before
its first `await`, then suspends through its expand animation, 500ms hold
and shrink animation, and finishes with a synchronous `cleanup`.  The
preview button's listener (transition.js:491-494) invokes it with no
in-flight or existing-clone check, so a fresh preview can start whenever the
event loop is idle, including while earlier previews are suspended:
`click` runs a new invocation up to its first await, `finish` resumes a
suspended invocation and runs its `cleanup`.  The initial configuration is a
document with no clone attached, no reference, and no preview in flight. -/
inductive PreviewReachable : PreviewConfig → Prop
  | init : PreviewReachable { clones := { attached := 0, ref := false }, suspendedPreviews := 0 }
  | click {c : PreviewConfig} : PreviewReachable c →
      PreviewReachable { clones := createCloneOp c.clones
                         suspendedPreviews := c.suspendedPreviews + 1 }
  | finish {c : PreviewConfig} : PreviewReachable c → 0 < c.suspendedPreviews →
      PreviewReachable { clones := cleanupOp c.clones
                         suspendedPreviews := c.suspendedPreviews - 1 }

/-- A concrete well-formed handoff payload, captured at time 1000, used to
evaluate the load-time read on explicit inputs. -/
def samplePayload : Payload :=
  { fillColor := some "#6366f1"
    serviceName := some "spotify"
    svgContent := some "svg"
    scale := some 15
    offsetX := some 0
    offsetY := some 0
    timestamp := some 1000 }

/-- A concrete transition-enabled element whose `data-scale` attribute parses
to the number 0 and whose other overrides are absent. -/
def zeroScaleLink : LinkAttrs :=
  { service := "github"
    color := none
    scaleParsed := some 0
    offsetXParsed := none
    offsetYParsed := none
    svgOuterHTML := "svg"
    rect := { left := 0, top := 0, width := 64, height := 64 } }

/-- A concrete transition-enabled element with a nonzero numeric
`data-scale` override and absent offset overrides. -/
def sampleLink : LinkAttrs :=
  { service := "figma"
    color := some "#ff0000"
    scaleParsed := some 7
    offsetXParsed := none
    offsetYParsed := some 0
    svgOuterHTML := "svg"
    rect := { left := 10, top := 20, width := 64, height := 64 } }

/-- A handoff payload whose stored `scale` field is the number 0. -/
def zeroScalePayload : Payload :=
  { fillColor := some "#6366f1"
    serviceName := some "github"
    svgContent := some "svg"
    scale := some 0
    offsetX := some 0
    offsetY := some 0
    timestamp := some 1000 }

/-! Theorems. -/

/-- Claim C1: for every stored payload with a capture timestamp, the load-time
read clears the slot unconditionally on first read, yields the parsed value
iff `now - capturedAt ≤ 3000`, and a second read after one put finds the slot
empty. -/
theorem claim_C1_take_if_fresh (p : Payload) (now t : Int) (h : p.timestamp = some t) :
    (takeIfFresh (.stored p) now).slotAfter = .absent
    ∧ ((takeIfFresh (.stored p) now).value = some p ↔ now - t ≤ 3000)
    ∧ ∀ later : Int,
        takeIfFresh (takeIfFresh (.stored p) now).slotAfter later
          = { slotAfter := .absent, value := none, raised := false } := by
  by_cases hs : now - t > 3000 <;>
    simp [takeIfFresh, h, hs] <;> omega

/-- Witness for C1 at a concrete payload: captured at time 1000, read at time
2000 (fresh, so the value is returned), slot left empty. -/
theorem claim_C1_witness :
    (takeIfFresh (.stored samplePayload) 2000).slotAfter = .absent
    ∧ ((takeIfFresh (.stored samplePayload) 2000).value = some samplePayload
        ↔ (2000 : Int) - 1000 ≤ 3000)
    ∧ ∀ later : Int,
        takeIfFresh (takeIfFresh (.stored samplePayload) 2000).slotAfter
            later
          = { slotAfter := .absent, value := none, raised := false } :=
  claim_C1_take_if_fresh _ 2000 1000 rfl

/-- Claim C2 counterexample: the stored non-empty value `"oops"`, which
`JSON.parse` rejects, is not treated as absent — the read raises (the
exception escapes `checkIncomingTransition`) and the slot is not cleared,
contradicting "clears the slot, returns nothing, and never raises an
error". -/
theorem claim_C2_counterexample :
    (checkIncomingTransition (.garbled "oops") 0 true).raised = true
    ∧ (checkIncomingTransition (.garbled "oops") 0 true).slotAfter ≠ .absent := by
  decide

/-- Claim C2 as amended: in no malformed case is the slot cleared, and only
one malformed case avoids an error.  A stored empty string is falsy, so the
guard at line 180 returns silently before parsing — no raise, no replay, but
also no clearing.  Every stored non-empty string that `JSON.parse` rejects
makes the parse throw, and a stored `"null"` parses to null and then throws
a TypeError at `data.timestamp`; in both cases the uncaught error escapes
before any `removeItem` and the slot keeps the corrupt value. -/
theorem claim_C2_malformed (s : String) (now : Int) (markersFound : Bool) :
    checkIncomingTransition .empty now markersFound
      = { slotAfter := .empty, replay := none, raised := false }
    ∧ checkIncomingTransition (.garbled s) now markersFound
      = { slotAfter := .garbled s, replay := none, raised := true }
    ∧ checkIncomingTransition .parsedNull now markersFound
      = { slotAfter := .parsedNull, replay := none, raised := true } :=
  ⟨rfl, rfl, rfl⟩

/-- Claim C3: the expand phase's target rectangle is exactly the spec's
formula (`finalSize = max(w, h) * scale`, `targetLeft = vw/2 - finalSize/2 +
offsetX/100*vw`, symmetric vertically); at `scale = 15`, zero offsets, a
64×64 source rect and a 1920×1080 viewport it is `(480, 60, 960, 960)`; and
for zero offsets the target is centered for every viewport size. -/
theorem claim_C3_expand_target :
    (∀ (vw vh : ℚ) (rect : Rect) (s x y : ℚ),
        expandTarget vw vh rect s x y = specFullBleedTarget vw vh rect s x y)
    ∧ expandTarget 1920 1080 { left := 100, top := 100, width := 64, height := 64 } 15 0 0
        = { left := 480, top := 60, width := 960, height := 960 }
    ∧ (∀ (vw vh : ℚ) (rect : Rect) (s : ℚ),
        (expandTarget vw vh rect s 0 0).left + (expandTarget vw vh rect s 0 0).width / 2
          = vw / 2
        ∧ (expandTarget vw vh rect s 0 0).top + (expandTarget vw vh rect s 0 0).height / 2
          = vh / 2) := by
  refine ⟨fun vw vh rect s x y => rfl, by norm_num [expandTarget], fun vw vh rect s => ?_⟩
  constructor <;> simp [expandTarget]

/-- Claim C4 counterexample: an element whose `data-scale` attribute parses
to the number 0 does not get the parsed override back — `parseFloat(...) ||
default` treats 0 as falsy, so the resolver returns the default 15 instead
of 0. -/
theorem claim_C4_counterexample :
    (getServiceData zeroScaleLink).scale = 15 ∧ (15 : ℚ) ≠ 0 := by
  constructor
  · rfl
  · norm_num

/-- Claim C4 as amended: the resolver returns each numeric field as the
parsed attribute override when it parses to a nonzero number; overrides that
are absent, empty, or not parseable as a number — and also those parsing to
the number 0 — yield exactly the system default for that field (scale 15,
offsets 0), and a missing `data-color` yields the fixed accent color. -/
theorem claim_C4_resolver (link : LinkAttrs) :
    (link.scaleParsed = none → (getServiceData link).scale = 15)
    ∧ (∀ q : ℚ, link.scaleParsed = some q → q ≠ 0 → (getServiceData link).scale = q)
    ∧ (link.scaleParsed = some 0 → (getServiceData link).scale = 15)
    ∧ (link.offsetXParsed = none → (getServiceData link).offsetX = 0)
    ∧ (∀ q : ℚ, link.offsetXParsed = some q → q ≠ 0 → (getServiceData link).offsetX = q)
    ∧ (link.offsetYParsed = none → (getServiceData link).offsetY = 0)
    ∧ (∀ q : ℚ, link.offsetYParsed = some q → q ≠ 0 → (getServiceData link).offsetY = q)
    ∧ (link.color = none → (getServiceData link).fillColor = "#6366f1") := by
  refine ⟨?_, ?_, ?_, ?_, ?_, ?_, ?_, ?_⟩
  · intro h; simp [getServiceData, jsOrNum, defaults, h]
  · intro q h hq; simp [getServiceData, jsOrNum, defaults, h, hq]
  · intro h; simp [getServiceData, jsOrNum, defaults, h]
  · intro h; simp [getServiceData, jsOrNum, defaults, h]
  · intro q h hq; simp [getServiceData, jsOrNum, defaults, h, hq]
  · intro h; simp [getServiceData, jsOrNum, defaults, h]
  · intro q h hq; simp [getServiceData, jsOrNum, defaults, h, hq]
  · intro h; simp [getServiceData, jsOrStr, h]

/-- Witness for C4 as amended: on `sampleLink` (scale override parsing to 7,
absent `data-offset-x`) the resolver yields scale 7 and offsetX 0, and on
`zeroScaleLink` (scale override parsing to 0, absent `data-color`) it yields
the defaults 15 and the fixed accent. -/
theorem claim_C4_witness :
    (getServiceData sampleLink).scale = 7
    ∧ (getServiceData sampleLink).offsetX = 0
    ∧ (getServiceData zeroScaleLink).scale = 15
    ∧ (getServiceData zeroScaleLink).fillColor = "#6366f1" :=
  ⟨(claim_C4_resolver sampleLink).2.1 7 rfl (by norm_num),
   (claim_C4_resolver sampleLink).2.2.2.1 rfl,
   (claim_C4_resolver zeroScaleLink).2.2.1 rfl,
   (claim_C4_resolver zeroScaleLink).2.2.2.2.2.2.2 rfl⟩

/-- Claim C5: in every click-driven transition the navigation event occurs
immediately after the expand animation's completion event — the trace ends
with `expandAnimFinish` directly followed by `navigate`, and neither event
occurs earlier, so navigation never begins before completion and nothing is
interposed after it; the trace unconditionally reaches `navigate` (no
cancellation path). -/
theorem claim_C5_expand_then_navigate (url : String) (sd : ServiceData) (now : Int) :
    ∃ pre : List Ev,
      startTransitionEvents url sd now = pre ++ [.expandAnimFinish, .navigate url]
      ∧ Ev.navigate url ∉ pre ∧ Ev.expandAnimFinish ∉ pre := by
  refine ⟨[.setInFlight, .addTransitioningClass, .setBackground sd.fillColor,
    .storeWrite (putPayload sd now), .createClone, .expandAnimStart], rfl, ?_, ?_⟩ <;>
    simp

/-- Claim C6: a click on a transition-enabled element while `isTransitioning`
is true runs only `preventDefault` — no clone creation, no store write, and
no further action of any kind (dropped, not queued, no error event). -/
theorem claim_C6_click_dropped (link : LinkAttrs) (url : String) (now : Int) :
    clickEvents true link url now = [.preventDefault]
    ∧ Ev.createClone ∉ clickEvents true link url now
    ∧ ∀ p : Payload, Ev.storeWrite p ∉ clickEvents true link url now := by
  refine ⟨rfl, ?_, fun p => ?_⟩ <;> simp [clickEvents]

/-- Claim C7: when the destination markers are absent (`markersFound =
false`), no replay happens — `completeTransition`, the sole site of hero and
page mutations, is never invoked — yet a stored (parsed) payload is still
consumed: the slot is cleared whether the payload is fresh or stale, and no
error is raised. -/
theorem claim_C7_markers_absent (p : Payload) (now : Int) :
    (checkIncomingTransition (.stored p) now false).replay = none
    ∧ (checkIncomingTransition (.stored p) now false).slotAfter = .absent
    ∧ (checkIncomingTransition (.stored p) now false).raised = false := by
  cases h : p.timestamp with
  | none => simp [checkIncomingTransition, takeIfFresh, h]
  | some t =>
      by_cases hs : now - t > 3000 <;>
        simp [checkIncomingTransition, takeIfFresh, h, hs]

/-- Resolving an already-resolved value is the identity: `jsOrNum v d` is
never 0 unless `d` is, so feeding it back through `x || d` returns it
unchanged. -/
theorem jsOrNum_resolve (v : Option ℚ) (d : ℚ) :
    jsOrNum (some (jsOrNum v d)) d = jsOrNum v d := by
  cases v with
  | none => simp [jsOrNum]
  | some x => by_cases h : x = 0 <;> simp [jsOrNum, h]

/-- Claim C8: for every handoff payload the system writes (resolved service
data plus timestamp) and every viewport, the full-bleed rectangle at which
`createExpandedOverlay` initially places the destination clone equals the
expand phase's target-rectangle formula evaluated on a source rectangle of
the hero's fixed 64-unit base size — the same function of scale, offsets and
viewport. -/
theorem claim_C8_shrink_matches_expand (link : LinkAttrs) (vw vh : ℚ) (now : Int)
    (l t : ℚ) :
    createExpandedOverlayRect vw vh (putPayload (getServiceData link) now)
      = expandTarget vw vh { left := l, top := t, width := 64, height := 64 }
          (getServiceData link).scale (getServiceData link).offsetX
          (getServiceData link).offsetY := by
  simp [createExpandedOverlayRect, expandTarget, putPayload, getServiceData,
    jsOrNum_resolve, defaults]

/-- Claim C9 counterexample: a configuration with two simultaneously attached
overlay clones is reachable — two inspector Preview clicks, the second while
the first preview is suspended at its animations, each run
`createTransitionLogo` with no existing-clone or in-flight check. -/
theorem claim_C9_counterexample :
    PreviewReachable
      { clones := { attached := 2, ref := true }, suspendedPreviews := 2 } :=
  PreviewReachable.click (PreviewReachable.click PreviewReachable.init)

/-- Claim C9 as amended: the inspector preview path creates an OverlayClone
unconditionally, so a second Preview click while one preview is in flight
reaches a state with two attached clones; and after both suspended previews
resume and run `cleanup`, one clone remains attached with the reference
cleared — neither the at-most-one invariant nor the always-destroyed
guarantee holds on the preview path. -/
theorem claim_C9_preview_unguarded :
    PreviewReachable
      { clones := { attached := 2, ref := true }, suspendedPreviews := 2 }
    ∧ PreviewReachable
      { clones := { attached := 1, ref := false }, suspendedPreviews := 0 } := by
  constructor
  · exact PreviewReachable.click (PreviewReachable.click PreviewReachable.init)
  · have h2 : PreviewReachable
        { clones := { attached := 2, ref := true }, suspendedPreviews := 2 } :=
      PreviewReachable.click (PreviewReachable.click PreviewReachable.init)
    have h3 : PreviewReachable
        { clones := { attached := 1, ref := false }, suspendedPreviews := 1 } :=
      PreviewReachable.finish h2 (by norm_num)
    exact PreviewReachable.finish h3 (by norm_num)

/-- Claim C10: a `data-scale` attribute parsing to the number 0 resolves to
the default 15 (`parseFloat(...) || 15` with 0 falsy), and a stored payload
whose `scale` field is 0 is likewise replaced by 15 when the destination
shrink phase computes its full-bleed size (`data.scale || 15`), giving an
expanded size of `64 * 15`. -/
theorem claim_C10_zero_scale_default (link : LinkAttrs) (p : Payload) (vw vh : ℚ)
    (hl : link.scaleParsed = some 0) (hp : p.scale = some 0) :
    (getServiceData link).scale = 15
    ∧ (createExpandedOverlayRect vw vh p).width = 64 * 15 := by
  constructor
  · simp [getServiceData, jsOrNum, defaults, hl]
  · simp [createExpandedOverlayRect, jsOrNum, defaults, hp]

/-- Witness for C10: `zeroScaleLink` resolves to scale 15, and
`zeroScalePayload` yields an expanded width of 960 at a 1920×1080
viewport. -/
theorem claim_C10_witness :
    (getServiceData zeroScaleLink).scale = 15
    ∧ (createExpandedOverlayRect 1920 1080 zeroScalePayload).width = 64 * 15 :=
  claim_C10_zero_scale_default zeroScaleLink zeroScalePayload 1920 1080 rfl rfl

end LogoTransition
